import Mathlib

/-!
Verification development for `ipc/glue/BackgroundImpl.cpp`: the lazily
created background ("IPDL Background") dispatcher thread, the actor
creation/lifetime protocol of `ParentImpl`/`ChildImpl`, and the shutdown
coordinator.

Modelling conventions:
* The process-wide statics of `ParentImpl` (lines 906-923) become the `GState`
  record; the per-thread `ChildImpl::ThreadLocalInfo` becomes `ThreadLocalInfo`.
* Each C++ function is translated into a pure Lean function on these records.
  `MOZ_ASSERT` / `MOZ_RELEASE_ASSERT` / `CRASH_IN_CHILD_PROCESS` failures are
  modelled as the `none` result (debug-build semantics: execution aborts).
* Interactions with collaborators (thread spawning, timers, observer service,
  task dispatch, transports, process handles) are recorded in an `Effect`
  list; fallible collaborator calls take their outcome from an `Env` record.
  Dispatch-to-own-thread calls that the code itself wraps in
  `MOZ_ALWAYS_TRUE(NS_SUCCEEDED(...))` are modelled as succeeding.
* `uint64_t sLiveActorCount` is a `Nat`; the code decrements it only behind
  `MOZ_ASSERT(sLiveActorCount)`, which the model renders as a `none` result
  when the counter is zero.
-/

namespace BackgroundIpc

abbrev CallbackId := Nat

/-- Parent-side actor state: the per-instance fields of `ParentImpl`
(lines 177-196): `mContent`, `mTransport`, `mLiveActorArray` (as the flag of
being registered in the live-actor array), `mIsOtherProcessActor`,
`mActorDestroyed`, and the IPC `OtherProcess()` handle slot. -/
structure ParentActor where
  isOtherProcessActor : Bool
  content : Option Nat
  transport : Option Nat
  otherProcess : Option Nat
  inLiveArray : Bool
  actorDestroyed : Bool
deriving DecidableEq, Repr

/-- ParentImpl() same-process constructor (lines 244-252): no content, no
transport, other process set to the invalid handle. -/
def sameProcessParentActor : ParentActor :=
  { isOtherProcessActor := false, content := none, transport := none,
    otherProcess := none, inLiveArray := false, actorDestroyed := false }

/-- ParentImpl(aContent, aTransport) other-process constructor
(lines 255-263). -/
def otherProcessParentActor (content transport : Nat) : ParentActor :=
  { isOtherProcessActor := true, content := some content,
    transport := some transport, otherProcess := none, inLiveArray := false,
    actorDestroyed := false }

/-- Threads whose task queues receive dispatched tasks: the main thread, the
background (dispatcher) thread `sBackgroundThread`, the XRE I/O thread
(`XRE_GetIOMessageLoop()`), or the calling thread
(`NS_DispatchToCurrentThread`). -/
inductive Target
  | main
  | background
  | io
  | current
deriving DecidableEq, Repr

/-- Runnables/tasks of the parent side that get dispatched to some thread. -/
inductive PTask
  | requestMessageLoop
  | connectActor (actor : ParentActor) (transport : Nat) (processHandle : Nat)
  | createCallback (cb : CallbackId)
  | shutdownThreadCleanup
  | forceCloseActors
  | deleteTransport (t : Nat)
  | destroySelf
  | mainThreadDestroy
deriving DecidableEq, Repr

/-- Observable interactions with collaborators, in program order. -/
inductive Effect
  | createTimerInstance
  | registerShutdownObserver
  | spawnBackgroundThread (tid : Nat)
  | dispatch (tgt : Target) (task : PTask)
  | invokeSuccess (cb : CallbackId) (actor : ParentActor) (loop : Nat)
  | invokeFailure (cb : CallbackId)
  | closeProcessHandle (h : Nat)
  | releaseActorRef
  | armShutdownTimer
  | spinMainThreadUntilNoActors
  | cancelShutdownTimer
  | joinBackgroundThread
  | childShutdown
deriving DecidableEq, Repr

/-- Process-wide static state of `ParentImpl` (lines 141-175 declaration,
906-923 definitions): `sBackgroundThread`, `sLiveActorsForBackgroundThread`,
`sShutdownTimer`, `sBackgroundThreadMessageLoop`, `sLiveActorCount`,
`sShutdownObserverRegistered`, `sShutdownHasStarted`, `sPendingCallbacks`. -/
structure GState where
  backgroundThread : Option Nat
  liveActors : Option (List Nat)
  shutdownTimer : Option Nat
  messageLoop : Option Nat
  liveActorCount : Nat
  shutdownObserverRegistered : Bool
  shutdownHasStarted : Bool
  pendingCallbacks : Option (List CallbackId)
deriving DecidableEq, Repr

/-- Initial values of the statics (lines 906-923). -/
def initGState : GState :=
  { backgroundThread := none, liveActors := none, shutdownTimer := none,
    messageLoop := none, liveActorCount := 0,
    shutdownObserverRegistered := false, shutdownHasStarted := false,
    pendingCallbacks := none }

/-- Outcomes of the fallible collaborator calls made by
`ParentImpl::CreateBackgroundThread` (lines 1060-1123): timer instance
creation, observer-service lookup, `AddObserver`, `NS_NewNamedThread`
(with the identity of the spawned thread and the new timer), and the dispatch
of the `RequestMessageLoopRunnable` to the new thread. -/
structure Env where
  timerCreateOk : Bool
  observerServiceOk : Bool
  addObserverOk : Bool
  newThreadOk : Bool
  newThreadId : Nat
  newTimerId : Nat
  dispatchToNewThreadOk : Bool
deriving DecidableEq, Repr

/-- ParentImpl::CreateBackgroundThread (lines 1060-1123), translated branch by
branch. Asserts `!sBackgroundThread` and `!sLiveActorsForBackgroundThread`
on entry; fails immediately after shutdown has started; creates a timer
instance if none is published; registers the shutdown observer if the
`sShutdownObserverRegistered` flag is unset (setting the flag even if the
call later fails to spawn the thread); spawns the named thread; dispatches
`RequestMessageLoopRunnable` to it; and only then commits
`sBackgroundThread`, `sLiveActorsForBackgroundThread` and (if newly created)
`sShutdownTimer`. -/
def CreateBackgroundThread (env : Env) (s : GState) :
    Option (Bool × GState × List Effect) :=
  if s.backgroundThread.isSome ∨ s.liveActors.isSome then none
  else if s.shutdownHasStarted then some (false, s, [])
  else
    let needTimer := s.shutdownTimer.isNone
    if needTimer ∧ ¬env.timerCreateOk then some (false, s, [])
    else
      let effsTimer := if needTimer then [Effect.createTimerInstance] else []
      if ¬s.shutdownObserverRegistered ∧ ¬env.observerServiceOk then
        some (false, s, effsTimer)
      else if ¬s.shutdownObserverRegistered ∧ ¬env.addObserverOk then
        some (false, s, effsTimer)
      else
        let s1 := if s.shutdownObserverRegistered then s
                  else { s with shutdownObserverRegistered := true }
        let effsObs := if s.shutdownObserverRegistered then []
                       else [Effect.registerShutdownObserver]
        if ¬env.newThreadOk then some (false, s1, effsTimer ++ effsObs)
        else if ¬env.dispatchToNewThreadOk then
          some (false, s1,
            effsTimer ++ effsObs ++ [Effect.spawnBackgroundThread env.newThreadId])
        else
          some (true,
            { s1 with backgroundThread := some env.newThreadId,
                      liveActors := some [],
                      shutdownTimer := if needTimer then some env.newTimerId
                                       else s1.shutdownTimer },
            effsTimer ++ effsObs ++
              [Effect.spawnBackgroundThread env.newThreadId,
               Effect.dispatch .background .requestMessageLoop])

/-- ParentImpl::ShutdownBackgroundThread (lines 1126-1205). Entry assertions
become `none`; the pending same-process callbacks are drained with
`Failure()`; the timer reference is taken during final shutdown; if the
thread exists its statics are cleared, the final-shutdown spin (arm timer,
`NS_ProcessNextEvent` until `sLiveActorCount == 0`, cancel timer) is recorded
as effects with the loop's exit condition `sLiveActorCount == 0` as the
resulting counter, and the cleanup runnable dispatch plus thread shutdown
are recorded. -/
def ShutdownBackgroundThread (s : GState) : Option (GState × List Effect) :=
  if s.backgroundThread.isNone ∧ s.messageLoop.isSome then none
  else if ¬s.shutdownHasStarted ∧ s.liveActorCount ≠ 0 then none
  else if s.backgroundThread.isNone ∧ s.liveActorCount ≠ 0 then none
  else if s.backgroundThread.isSome ∧ s.shutdownTimer.isNone then none
  else
    let drained :=
      match s.pendingCallbacks with
      | none => (s, ([] : List Effect))
      | some cbs =>
          ({ s with pendingCallbacks :=
               if s.shutdownHasStarted then none else some [] },
           cbs.map Effect.invokeFailure)
    let s1 := drained.1
    let effs1 := drained.2
    let s2 := if s1.shutdownHasStarted then { s1 with shutdownTimer := none }
              else s1
    if s2.backgroundThread.isSome then
      let s3 := { s2 with backgroundThread := none, liveActors := none,
                          messageLoop := none }
      let spin :=
        if s3.shutdownHasStarted ∧ s3.liveActorCount ≠ 0 then
          ({ s3 with liveActorCount := 0 },
           [Effect.armShutdownTimer, Effect.spinMainThreadUntilNoActors,
            Effect.cancelShutdownTimer])
        else (s3, ([] : List Effect))
      some (spin.1,
        effs1 ++ spin.2 ++
          [Effect.dispatch .background .shutdownThreadCleanup,
           Effect.joinBackgroundThread])
    else
      some (s2, effs1)

/-- Collaborator outcomes for `ParentImpl::Alloc`: `base::OpenProcessHandle`,
the environment of the nested `CreateBackgroundThread` call, and the
dispatch of the `ConnectActorRunnable` to the background thread. -/
structure AllocEnv where
  openHandleOk : Bool
  processHandle : Nat
  cbtEnv : Env
  dispatchConnectOk : Bool
deriving DecidableEq, Repr

/-- ParentImpl::Alloc (lines 980-1025): fails (returns no actor) when the
peer process handle cannot be opened; ensures the background thread exists;
increments `sLiveActorCount`; constructs the other-process `ParentImpl`; and
dispatches the `ConnectActorRunnable` to the background thread. On dispatch
failure the counter is decremented again and, if it reached zero,
`ShutdownBackgroundThread()` runs. -/
def Alloc (env : AllocEnv) (content transport : Nat) (s : GState) :
    Option (Option ParentActor × GState × List Effect) :=
  if ¬env.openHandleOk then some (none, s, [])
  else
    let step1 :=
      if s.backgroundThread.isNone then CreateBackgroundThread env.cbtEnv s
      else some (true, s, ([] : List Effect))
    match step1 with
    | none => none
    | some (false, s1, effs) => some (none, s1, effs)
    | some (true, s1, effs) =>
      if s1.liveActors.isNone then none
      else
        let s2 := { s1 with liveActorCount := s1.liveActorCount + 1 }
        let actor := otherProcessParentActor content transport
        if env.dispatchConnectOk then
          some (some actor, s2,
            effs ++
              [Effect.dispatch .background
                 (.connectActor actor transport env.processHandle)])
        else
          if s2.liveActorCount = 0 then none
          else
            let s3 := { s2 with liveActorCount := s2.liveActorCount - 1 }
            if s3.liveActorCount = 0 then
              match ShutdownBackgroundThread s3 with
              | none => none
              | some (s4, effs2) => some (none, s4, effs ++ effs2)
            else some (none, s3, effs)

/-- ParentImpl::CreateActorForSameProcess (lines 1028-1057): ensures the
background thread exists, asserts `!sShutdownHasStarted`, increments
`sLiveActorCount`, then either dispatches a `CreateCallbackRunnable` to the
current (main) thread when `sBackgroundThreadMessageLoop` is known, or
appends the callback to `sPendingCallbacks`. -/
def CreateActorForSameProcess (env : Env) (cb : CallbackId) (s : GState) :
    Option (Bool × GState × List Effect) :=
  let step1 :=
    if s.backgroundThread.isNone then CreateBackgroundThread env s
    else some (true, s, ([] : List Effect))
  match step1 with
  | none => none
  | some (false, s1, effs) => some (false, s1, effs)
  | some (true, s1, effs) =>
    if s1.shutdownHasStarted then none
    else
      let s2 := { s1 with liveActorCount := s1.liveActorCount + 1 }
      if s2.messageLoop.isSome then
        some (true, s2, effs ++ [Effect.dispatch .current (.createCallback cb)])
      else
        let pcs := s2.pendingCallbacks.getD [] ++ [cb]
        some (true, { s2 with pendingCallbacks := some pcs }, effs)

/-- ParentImpl::CreateCallbackRunnable::Run (lines 1488-1504): asserts
`sBackgroundThreadMessageLoop`, constructs a bare same-process `ParentImpl`
and invokes `callback->Success(actor, sBackgroundThreadMessageLoop)`. -/
def CreateCallbackRunnableRun (cb : CallbackId) (s : GState) :
    Option (GState × List Effect) :=
  match s.messageLoop with
  | none => none
  | some loop => some (s, [Effect.invokeSuccess cb sameProcessParentActor loop])

/-- ParentImpl::RequestMessageLoopRunnable::Run, main-thread leg
(lines 1378-1405): if `sBackgroundThread` still is the runnable's target
thread, publishes `sBackgroundThreadMessageLoop` (asserting it was null) and
dispatches one `CreateCallbackRunnable` per pending callback to the current
(main) thread, in queue order. The per-callback
`NS_DispatchToCurrentThread`, whose failure the code only warns about
(line 1399, skipping that callback), is modelled as succeeding. -/
def RequestMessageLoopMainLeg (targetThread loop : Nat) (s : GState) :
    Option (GState × List Effect) :=
  if s.backgroundThread ≠ some targetThread then some (s, [])
  else if s.messageLoop.isSome then none
  else
    match s.pendingCallbacks with
    | none => some ({ s with messageLoop := some loop }, [])
    | some cbs =>
        if cbs.isEmpty then some ({ s with messageLoop := some loop }, [])
        else
          some ({ s with messageLoop := some loop,
                         pendingCallbacks := some [] },
            cbs.map fun c => Effect.dispatch .current (.createCallback c))

/-- ParentImpl::ShutdownObserver::Observe (lines 1348-1367): asserts shutdown
has not already started, sets `sShutdownHasStarted`, runs
`ChildImpl::Shutdown()` (recorded as an effect) and then
`ShutdownBackgroundThread()`. -/
def Observe (s : GState) : Option (GState × List Effect) :=
  if s.shutdownHasStarted then none
  else
    match ShutdownBackgroundThread { s with shutdownHasStarted := true } with
    | none => none
    | some (s2, effs) => some (s2, Effect.childShutdown :: effs)

/-- ParentImpl::ActorDestroy (lines 1315-1344), background-thread leg:
asserts `!mActorDestroyed` (and a live-actor array for other-process
actors), marks the actor destroyed, removes it from the live-actor array,
and dispatches a runnable invoking `Destroy()` to the current (background)
thread. -/
def ParentActorDestroy (a : ParentActor) : Option (ParentActor × List Effect) :=
  if a.actorDestroyed then none
  else if a.isOtherProcessActor ∧ ¬a.inLiveArray then none
  else
    let a1 := { a with actorDestroyed := true }
    let a2 := if a1.inLiveArray then { a1 with inLiveArray := false } else a1
    some (a2, [Effect.dispatch .current .destroySelf])

/-- ParentImpl::Destroy (lines 1229-1241): dispatches the
`MainThreadActorDestroy` runnable to the main thread. -/
def ParentDestroy : List Effect :=
  [Effect.dispatch .main .mainThreadDestroy]

/-- Actor-local part of `ParentImpl::MainThreadActorDestroy`
(lines 1253-1267): posts a `DeleteTask<Transport>` to
`XRE_GetIOMessageLoop()` (never deleting the transport on the calling
thread) and clears `mTransport`; closes the peer process handle if any;
clears `mContent`. -/
def mainThreadActorCleanup (a : ParentActor) : ParentActor × List Effect :=
  let t1 :=
    match a.transport with
    | some t => ({ a with transport := none },
                 [Effect.dispatch .io (.deleteTransport t)])
    | none => (a, ([] : List Effect))
  let t2 :=
    match t1.1.otherProcess with
    | some h => ({ t1.1 with otherProcess := none },
                 [Effect.closeProcessHandle h])
    | none => (t1.1, ([] : List Effect))
  ({ t2.1 with content := none }, t1.2 ++ t2.2)

/-- ParentImpl::MainThreadActorDestroy (lines 1243-1278): asserts the
content/transport fields match `mIsOtherProcessActor`; performs the
actor-local cleanup above; asserts and decrements `sLiveActorCount`; when
the counter reaches zero runs `ShutdownBackgroundThread()`; finally
releases the self reference. -/
def MainThreadActorDestroy (s : GState) (a : ParentActor) :
    Option (GState × ParentActor × List Effect) :=
  if a.isOtherProcessActor ∧ (a.content.isNone ∨ a.transport.isNone) then none
  else if ¬a.isOtherProcessActor ∧ (a.content.isSome ∨ a.transport.isSome) then
    none
  else
    let c := mainThreadActorCleanup a
    if s.liveActorCount = 0 then none
    else
      let s1 := { s with liveActorCount := s.liveActorCount - 1 }
      if s1.liveActorCount = 0 then
        match ShutdownBackgroundThread s1 with
        | none => none
        | some (s2, effs2) =>
            some (s2, c.1, c.2 ++ effs2 ++ [Effect.releaseActorRef])
      else
        some (s1, c.1, c.2 ++ [Effect.releaseActorRef])

/-- ParentImpl::ShutdownTimerCallback (lines 1208-1227) takes effect on the
shutdown-phase machine `ShutdownTimerFire` below; this definition records its
dispatch of the `ForceCloseBackgroundActorsRunnable` to the background
thread. -/
def ShutdownTimerCallbackEffects : List Effect :=
  [Effect.dispatch .background .forceCloseActors]

/-! Child side. -/

/-- Child-side actor state: `ChildImpl::mBoundThread` and
`ChildImpl::mActorDestroyed` (lines 348-354). -/
structure ChildActor where
  boundThread : Option Nat
  actorDestroyed : Bool
deriving DecidableEq, Repr

/-- ChildImpl::ThreadLocalInfo (lines 328-338): the thread's actor slot and
its FIFO queue of pending creation callbacks (the opaque
`mConsumerThreadLocal` payload is not modelled). -/
structure ThreadLocalInfo where
  actor : Option ChildActor
  callbacks : List CallbackId
deriving DecidableEq, Repr

/-- Per-consumer-thread view of the child side: the value stored at
`sThreadLocalIndex` for this thread. -/
structure ChildState where
  threadLocal : Option ThreadLocalInfo
deriving DecidableEq, Repr

/-- Notifications delivered to `nsIIPCBackgroundChildCreateCallback`s. -/
inductive Notif
  | actorCreated (cb : CallbackId)
  | actorFailed (cb : CallbackId)
deriving DecidableEq, Repr

/-- Child-side dispatch effects of `GetOrCreateForCurrentThread`. -/
inductive CEffect
  | dispatchAlreadyCreatedRunnable
  | openProtocolOnMainThread
  | dispatchCreateActorToMain
deriving DecidableEq, Repr

/-- ChildImpl::GetForCurrentThread (lines 1619-1632): the thread-local
actor, or none when the slot does not exist or holds no actor. -/
def GetForCurrentThread (st : ChildState) : Option ChildActor :=
  match st.threadLocal with
  | none => none
  | some tli => tli.actor

/-- ChildImpl::GetNextCallback (lines 1745-1764): asserts the thread-local
info exists and pops the front of the FIFO callback queue. -/
def GetNextCallback (st : ChildState) :
    Option (Option CallbackId × ChildState) :=
  match st.threadLocal with
  | none => none
  | some tli =>
    match tli.callbacks with
    | [] => some (none, st)
    | c :: rest => some (some c, ⟨some { tli with callbacks := rest }⟩)

/-- ChildImpl::GetOrCreateForCurrentThread (lines 1635-1693): appends the
callback to an existing slot's queue (dispatching an
`AlreadyCreatedCallbackRunnable` when the actor already exists, and doing
nothing further when a creation sequence is already in flight), or creates
the slot seeded with the callback and starts the one construction sequence —
inline via `OpenProtocolOnMainThread` on the main thread (whose downstream
outcome is the `openProtocolOk` parameter; on failure the function returns
false, line 1680), else via a `CreateActorRunnable` dispatched to the main
thread. The TLS store and the main-thread dispatch, whose failures the code
treats as fatal (`CRASH_IN_CHILD_PROCESS`), are modelled as succeeding. -/
def GetOrCreateForCurrentThread (onMainThread openProtocolOk : Bool)
    (cb : CallbackId) (st : ChildState) :
    Option (Bool × ChildState × List CEffect) :=
  match st.threadLocal with
  | some tli =>
    let tli1 := { tli with callbacks := tli.callbacks ++ [cb] }
    if tli.actor.isSome then
      some (true, ⟨some tli1⟩, [CEffect.dispatchAlreadyCreatedRunnable])
    else
      some (true, ⟨some tli1⟩, [])
  | none =>
    let st1 : ChildState := ⟨some ⟨none, [cb]⟩⟩
    if onMainThread then
      if ¬openProtocolOk then
        some (false, st1, [CEffect.openProtocolOnMainThread])
      else
        some (true, st1, [CEffect.openProtocolOnMainThread])
    else
      some (true, st1, [CEffect.dispatchCreateActorToMain])

/-- ChildImpl::AlreadyCreatedCallbackRunnable::Run (lines 1769-1794): when
`GetForCurrentThread()` is null the runnable returns without invoking or
draining any queued callback; otherwise it drains the queue front to back,
invoking `ActorCreated` on each callback. -/
def AlreadyCreatedCallbackRunnableRun (st : ChildState) :
    ChildState × List Notif :=
  match st.threadLocal with
  | none => (st, [])
  | some tli =>
    match tli.actor with
    | none => (st, [])
    | some _ =>
        (⟨some { tli with callbacks := [] }⟩,
         tli.callbacks.map Notif.actorCreated)

/-- ChildImpl::FailedCreateCallbackRunnable::Run (lines 1807-1820): drains
the queue front to back invoking `ActorFailed` on each callback. -/
def FailedCreateCallbackRunnableRun (st : ChildState) :
    Option (ChildState × List Notif) :=
  match st.threadLocal with
  | none => none
  | some tli =>
      some (⟨some { tli with callbacks := [] }⟩,
        tli.callbacks.map Notif.actorFailed)

/-- ChildImpl::OpenChildProcessActorRunnable::Run (lines 1825-1873): pops the
first callback (asserting at least one exists); if `Open` fails,
`CRASH_IN_CHILD_PROCESS` aborts (modelled as `none`; the subsequent
`ActorFailed` drain is reachable only in a release-build main process); on
success asserts the slot held no actor yet, installs the new actor bound to
the current thread, and drains the whole queue front to back with
`ActorCreated`. -/
def OpenChildProcessActorRunnableRun (openOk : Bool) (currentThread : Nat)
    (st : ChildState) : Option (ChildState × List Notif) :=
  match st.threadLocal with
  | none => none
  | some tli =>
    match tli.callbacks with
    | [] => none
    | c :: rest =>
      if ¬openOk then none
      else if tli.actor.isSome then none
      else
        some (⟨some { tli with
                        actor := some ⟨some currentThread, false⟩,
                        callbacks := [] }⟩,
          (c :: rest).map Notif.actorCreated)

/-- ChildImpl::ActorDestroy (lines 2047-2056): asserts the actor is bound to
the calling thread and `!mActorDestroyed`, then marks it destroyed. -/
def ChildActorDestroy (currentThread : Nat) (a : ChildActor) :
    Option ChildActor :=
  match a.boundThread with
  | none => none
  | some t =>
    if currentThread ≠ t then none
    else if a.actorDestroyed then none
    else some { a with actorDestroyed := true }

/-! Well-formedness of the parent-side statics. These are the cross-field
facts the code maintains and asserts (comments at lines 141-175,
`MOZ_ASSERT_IF`s at lines 1131-1134): the message loop is only known while
the thread exists, the live-actor array exists exactly while the thread
does, the counter is zero while no thread exists, and a thread implies a
published shutdown timer. -/

def WFG (g : GState) : Prop :=
  (g.messageLoop ≠ none → g.backgroundThread ≠ none) ∧
  (g.backgroundThread = none ↔ g.liveActors = none) ∧
  (g.backgroundThread = none → g.liveActorCount = 0) ∧
  (g.backgroundThread ≠ none → g.shutdownTimer ≠ none)

instance (g : GState) : Decidable (WFG g) := by
  unfold WFG
  infer_instance

/-- Content/transport fields matching `mIsOtherProcessActor`, as asserted at
lines 1248-1251. -/
def WFActor (a : ParentActor) : Prop :=
  (a.isOtherProcessActor = true → a.content.isSome ∧ a.transport.isSome) ∧
  (a.isOtherProcessActor = false → a.content = none ∧ a.transport = none)

instance (a : ParentActor) : Decidable (WFActor a) := by
  unfold WFActor
  infer_instance

/-! Live-actor counting machine (for the counter invariant): the main-thread
entry points that touch `sLiveActorCount`, driven as events. A same-process
creation request increments the counter before its `ParentImpl` is built by
the later `CreateCallbackRunnable`, so the machine also tracks the number of
such in-flight constructions. -/

structure LifeState where
  g : GState
  live : List ParentActor
  pendingConstruct : Nat
deriving DecidableEq, Repr

inductive LifeEvent
  | allocCross (env : AllocEnv) (content transport : Nat)
  | allocSame (env : Env) (cb : CallbackId)
  | publishLoop (tid loop : Nat)
  | constructSame (cb : CallbackId)
  | destroy (i : Nat)
deriving Repr

/-- One main-thread event: a cross-process `Alloc` attempt, a same-process
creation request, the publication of the background thread's message loop, a
`CreateCallbackRunnable` constructing an in-flight same-process actor, or an
actor's `MainThreadActorDestroy`. The destroy event requires a live (not yet
destroyed) actor, matching the code's discipline that `ActorDestroy` — and
hence the one dispatched `MainThreadActorDestroy` — runs at most once per
actor. -/
def lifeStep (ls : LifeState) (e : LifeEvent) : Option LifeState :=
  match e with
  | .allocCross env c t =>
    match Alloc env c t ls.g with
    | none => none
    | some (some a, g1, _) => some ⟨g1, ls.live ++ [a], ls.pendingConstruct⟩
    | some (none, g1, _) => some ⟨g1, ls.live, ls.pendingConstruct⟩
  | .allocSame env cb =>
    match CreateActorForSameProcess env cb ls.g with
    | none => none
    | some (ok, g1, _) =>
      some ⟨g1, ls.live,
        if ok then ls.pendingConstruct + 1 else ls.pendingConstruct⟩
  | .publishLoop tid loop =>
    match RequestMessageLoopMainLeg tid loop ls.g with
    | none => none
    | some (g1, _) => some ⟨g1, ls.live, ls.pendingConstruct⟩
  | .constructSame cb =>
    if ls.pendingConstruct = 0 then none
    else
      match CreateCallbackRunnableRun cb ls.g with
      | none => none
      | some (g1, _) =>
          some ⟨g1, ls.live ++ [sameProcessParentActor],
            ls.pendingConstruct - 1⟩
  | .destroy i =>
    match ls.live[i]? with
    | none => none
    | some a =>
      match MainThreadActorDestroy ls.g a with
      | none => none
      | some (g1, _, _) => some ⟨g1, ls.live.eraseIdx i, ls.pendingConstruct⟩

def initLife : LifeState := ⟨initGState, [], 0⟩

def runLifeFrom (ls : LifeState) : List LifeEvent → Option LifeState
  | [] => some ls
  | e :: rest =>
    match lifeStep ls e with
    | none => none
    | some ls1 => runLifeFrom ls1 rest

def runLife (evs : List LifeEvent) : Option LifeState :=
  runLifeFrom initLife evs

/-- Invariant tying `sLiveActorCount` to the live and in-flight actors. -/
def LifeInv (ls : LifeState) : Prop :=
  ls.g.liveActorCount = ls.live.length + ls.pendingConstruct ∧
  ls.g.shutdownHasStarted = false ∧
  WFG ls.g ∧
  ∀ a ∈ ls.live, WFActor a

instance (ls : LifeState) : Decidable (LifeInv ls) := by
  unfold LifeInv
  infer_instance

/-! Shutdown forcing phase (timer fired during the final-shutdown spin):
`ShutdownTimerCallback` (lines 1208-1227) and the two legs of
`ForceCloseBackgroundActorsRunnable::Run` (lines 1458-1484), interleaved
with the remaining actors' `MainThreadActorDestroy` decrements. -/

structure ShutdownPhase where
  liveActorCount : Nat
  liveActors : Nat
  bgForceClosePending : Bool
  mainForceClosePending : Bool
  closesIssued : Bool
deriving DecidableEq, Repr

/-- ParentImpl::ShutdownTimerCallback (lines 1208-1227): asserts
`sLiveActorCount`, increments it ("don't let the stack unwind until the
ForceCloseBackgroundActorsRunnable has finished"), and dispatches the
force-close runnable to the background thread. -/
def ShutdownTimerFire (s : ShutdownPhase) : Option ShutdownPhase :=
  if s.liveActorCount = 0 then none
  else some { s with liveActorCount := s.liveActorCount + 1,
                     bgForceClosePending := true }

inductive SdEvent
  | runForceCloseBg
  | runForceCloseMain
  | runActorMainDestroy
deriving DecidableEq, Repr

/-- Events of the forcing phase: the background-thread leg of
`ForceCloseBackgroundActorsRunnable::Run` (issues `Close()` on every actor
still in the live array, then dispatches itself to the main thread), its
main-thread leg (asserts and decrements `sLiveActorCount`), and one
still-live actor's `MainThreadActorDestroy` decrement. -/
def sdStep (s : ShutdownPhase) (e : SdEvent) : Option ShutdownPhase :=
  match e with
  | .runForceCloseBg =>
    if s.bgForceClosePending then
      some { s with bgForceClosePending := false, closesIssued := true,
                    mainForceClosePending := true }
    else none
  | .runForceCloseMain =>
    if s.mainForceClosePending then
      if s.liveActorCount = 0 then none
      else some { s with mainForceClosePending := false,
                         liveActorCount := s.liveActorCount - 1 }
    else none
  | .runActorMainDestroy =>
    if s.liveActors = 0 then none
    else if s.liveActorCount = 0 then none
    else some { s with liveActors := s.liveActors - 1,
                       liveActorCount := s.liveActorCount - 1 }

def sdRun (s : ShutdownPhase) : List SdEvent → Option ShutdownPhase
  | [] => some s
  | e :: rest =>
    match sdStep s e with
    | none => none
    | some s1 => sdRun s1 rest

/-- Invariant of the forcing phase: the counter equals the still-live actors
plus the one extra reference held while either force-close leg is pending;
the two legs are never pending at once; the main leg is pending only after
the background leg issued the closes; and after the timer fired some part of
the pipeline is pending or the closes have been issued. -/
def SdInv (s : ShutdownPhase) : Prop :=
  s.liveActorCount =
    s.liveActors +
      (if s.bgForceClosePending ∨ s.mainForceClosePending then 1 else 0) ∧
  ¬(s.bgForceClosePending ∧ s.mainForceClosePending) ∧
  (s.mainForceClosePending → s.closesIssued) ∧
  (s.bgForceClosePending ∨ s.mainForceClosePending ∨ s.closesIssued)

instance (s : ShutdownPhase) : Decidable (SdInv s) := by
  unfold SdInv
  infer_instance



/-! Concrete sample inputs used by the claim witnesses and
counterexamples. -/

def envOK : Env := ⟨true, true, true, true, 1, 9, true⟩

def envSpawnFail : Env := ⟨true, true, true, false, 1, 9, true⟩

def aenvOK : AllocEnv := ⟨true, 4, envOK, true⟩

def gShutdownStarted : GState :=
  { backgroundThread := none, liveActors := none, shutdownTimer := none,
    messageLoop := none, liveActorCount := 0,
    shutdownObserverRegistered := true, shutdownHasStarted := true,
    pendingCallbacks := none }

def destroyedSameProcessActor : ParentActor :=
  { isOtherProcessActor := false, content := none, transport := none,
    otherProcess := none, inLiveArray := false, actorDestroyed := true }

def c3State : GState :=
  { backgroundThread := some 1, liveActors := some [], shutdownTimer := some 9,
    messageLoop := some 2, liveActorCount := 2,
    shutdownObserverRegistered := false, shutdownHasStarted := false,
    pendingCallbacks := none }

def c3Actor : ParentActor :=
  { isOtherProcessActor := true, content := some 3, transport := some 5,
    otherProcess := some 4, inLiveArray := false, actorDestroyed := true }

def c3StateAfter : GState := { c3State with liveActorCount := 1 }

def c3ActorAfter : ParentActor :=
  { isOtherProcessActor := true, content := none, transport := none,
    otherProcess := none, inLiveArray := false, actorDestroyed := true }

def c3Effs : List Effect :=
  [Effect.dispatch .io (.deleteTransport 5), Effect.closeProcessHandle 4,
   Effect.releaseActorRef]

def c8S1 : GState :=
  { backgroundThread := some 1, liveActors := some [], shutdownTimer := some 9,
    messageLoop := none, liveActorCount := 0,
    shutdownObserverRegistered := true, shutdownHasStarted := false,
    pendingCallbacks := none }

def c8Effs : List Effect :=
  [Effect.createTimerInstance, Effect.registerShutdownObserver,
   Effect.spawnBackgroundThread 1,
   Effect.dispatch .background .requestMessageLoop]

def aenvNoHandle : AllocEnv := ⟨false, 4, envOK, true⟩

def c5Trace : List LifeEvent := [.allocCross aenvOK 3 5]

def c5LS : LifeState :=
  ⟨{ backgroundThread := some 1, liveActors := some [],
     shutdownTimer := some 9, messageLoop := none, liveActorCount := 1,
     shutdownObserverRegistered := true, shutdownHasStarted := false,
     pendingCallbacks := none }, [otherProcessParentActor 3 5], 0⟩

def c5Effs : List Effect :=
  [Effect.createTimerInstance, Effect.registerShutdownObserver,
   Effect.spawnBackgroundThread 1,
   Effect.dispatch .background .requestMessageLoop,
   Effect.dispatch .background (.connectActor (otherProcessParentActor 3 5) 5 4)]

def c10S0 : ShutdownPhase := ⟨2, 2, false, false, false⟩

def c10S1 : ShutdownPhase := ⟨3, 2, true, false, false⟩

def c10S2 : ShutdownPhase := ⟨0, 0, false, false, true⟩

def c10Evs : List SdEvent :=
  [.runForceCloseBg, .runActorMainDestroy, .runActorMainDestroy,
   .runForceCloseMain]

def c7StateNoLoop : GState :=
  { backgroundThread := some 1, liveActors := some [], shutdownTimer := some 9,
    messageLoop := none, liveActorCount := 0,
    shutdownObserverRegistered := true, shutdownHasStarted := false,
    pendingCallbacks := some [21, 22] }

set_option maxHeartbeats 2000000 in
/-- Case summary of `CreateBackgroundThread`: the statics it can and cannot
touch, on the success and on every failure branch. -/
theorem cbt_spec (env : Env) (s : GState)
    (hTh : s.backgroundThread = none) (hArr : s.liveActors = none) :
    ∃ b s1 effs, CreateBackgroundThread env s = some (b, s1, effs) ∧
      s1.liveActorCount = s.liveActorCount ∧
      s1.messageLoop = s.messageLoop ∧
      s1.shutdownHasStarted = s.shutdownHasStarted ∧
      s1.pendingCallbacks = s.pendingCallbacks ∧
      (s.shutdownObserverRegistered = true →
        s1.shutdownObserverRegistered = true) ∧
      (b = true → s1.backgroundThread = some env.newThreadId ∧
        s1.liveActors = some [] ∧ s1.shutdownTimer ≠ none ∧
        s.shutdownHasStarted = false) ∧
      (b = false → s1.backgroundThread = none ∧ s1.liveActors = none ∧
        s1.shutdownTimer = s.shutdownTimer) ∧
      (∀ tgt task, Effect.dispatch tgt task ∈ effs →
        task = PTask.requestMessageLoop) := by
  simp only [CreateBackgroundThread, hTh, hArr, Option.isSome_none,
    Bool.false_eq_true, or_self, if_false]
  split_ifs with h1 h2 h3 h4 h5 h6 h7 <;>
    refine ⟨_, _, _, rfl, rfl, rfl, rfl, rfl, ?_, ?_, ?_, ?_⟩ <;>
      simp_all [Option.isSome_iff_ne_none]

set_option maxHeartbeats 2000000 in
/-- ShutdownBackgroundThread invoked with a zero live-actor count (as on the
paths where a decrement reaches zero): it succeeds, clears the thread
statics, and emits only cleanup and pending-callback-failure effects. -/
theorem sbt_zero_spec (s : GState) (hWF : WFG s) (hC : s.liveActorCount = 0) :
    ∃ s1 effs, ShutdownBackgroundThread s = some (s1, effs) ∧
      s1.liveActorCount = 0 ∧ s1.backgroundThread = none ∧
      s1.messageLoop = none ∧ s1.liveActors = none ∧
      s1.shutdownHasStarted = s.shutdownHasStarted ∧
      (∀ e ∈ effs, e = Effect.dispatch .background .shutdownThreadCleanup ∨
        e = Effect.joinBackgroundThread ∨ ∃ cb, e = Effect.invokeFailure cb) := by
  obtain ⟨w1, w2, w3, w4⟩ := hWF
  cases hbt : s.backgroundThread <;>
    cases hpc : s.pendingCallbacks <;>
      by_cases hsd : s.shutdownHasStarted <;>
        simp_all [ShutdownBackgroundThread, Option.isSome_iff_ne_none] <;>
          refine ⟨_, _, ⟨rfl, rfl⟩, ?_⟩ <;> simp_all [List.mem_map] <;>
            (intro e he
             rcases he with ⟨a, _, rfl⟩ | rfl | rfl
             · exact Or.inr (Or.inr ⟨a, rfl⟩)
             · exact Or.inl rfl
             · exact Or.inr (Or.inl rfl))

/-- WFG assembly helper for states without a background thread. -/
theorem WFG_of_none {g : GState} (h1 : g.backgroundThread = none)
    (h2 : g.liveActors = none) (h3 : g.messageLoop = none)
    (h4 : g.liveActorCount = 0) : WFG g :=
  ⟨fun hml => absurd h3 hml, by simp [h1, h2], fun _ => h4,
   fun hth => absurd h1 hth⟩

/-- WFG assembly helper for states with a background thread. -/
theorem WFG_of_some {g : GState} {tid : Nat}
    (h1 : g.backgroundThread = some tid) (h2 : g.liveActors ≠ none)
    (h3 : g.shutdownTimer ≠ none) : WFG g :=
  ⟨fun _ => by simp [h1], by constructor <;> intro h <;> simp_all,
   fun h => by simp [h1] at h, fun _ => h3⟩

set_option maxHeartbeats 2000000 in
/-- Case summary of `ParentImpl::Alloc`: under the statics invariant it never
violates an assertion; on success the live-actor count is incremented by one
and the new other-process actor is returned; on every failure path the
count is left at its prior value and no connect task (the only path to
registering an actor with the background thread) is dispatched. -/
theorem alloc_spec (env : AllocEnv) (c t : Nat) (s : GState) (hWF : WFG s) :
    ∃ res s1 effs, Alloc env c t s = some (res, s1, effs) ∧
      WFG s1 ∧ s1.shutdownHasStarted = s.shutdownHasStarted ∧
      ((res = some (otherProcessParentActor c t) ∧
         s1.liveActorCount = s.liveActorCount + 1) ∨
       (res = none ∧ s1.liveActorCount = s.liveActorCount)) ∧
      (res = none → ∀ tgt a t2 h2,
        Effect.dispatch tgt (.connectActor a t2 h2) ∉ effs) := by
  obtain ⟨w1, w2, w3, w4⟩ := hWF
  by_cases hOpen : env.openHandleOk
  case neg =>
    refine ⟨none, s, [], by simp [Alloc, hOpen], ⟨w1, w2, w3, w4⟩, rfl,
      Or.inr ⟨rfl, rfl⟩, ?_⟩
    intro _ tgt a t2 h2 hmem
    simp at hmem
  case pos =>
    cases hbt : s.backgroundThread with
    | none =>
      have harr : s.liveActors = none := w2.mp hbt
      have hml : s.messageLoop = none := by
        by_contra hml
        exact w1 hml hbt
      have hcnt0 : s.liveActorCount = 0 := w3 hbt
      obtain ⟨b, s1, effs, hcbt, e1, e2, e3, e4, e5, e6, e7, e8⟩ :=
        cbt_spec env.cbtEnv s hbt harr
      cases b with
      | false =>
        obtain ⟨f1, f2, f3⟩ := e7 rfl
        refine ⟨none, s1, effs, by simp [Alloc, hOpen, hbt, hcbt],
          WFG_of_none f1 f2 (by rw [e2, hml]) (by rw [e1, hcnt0]), e3,
          Or.inr ⟨rfl, e1⟩, ?_⟩
        intro _ tgt a t2 h2 hmem
        have := e8 tgt _ hmem
        simp at this
      | true =>
        obtain ⟨g1, g2, g3, g4⟩ := e6 rfl
        have hWF1 : WFG s1 := WFG_of_some g1 (by simp [g2]) g3
        by_cases hDisp : env.dispatchConnectOk
        case pos =>
          refine ⟨some (otherProcessParentActor c t),
            { s1 with liveActorCount := s1.liveActorCount + 1 },
            effs ++ [Effect.dispatch .background
              (.connectActor (otherProcessParentActor c t) t env.processHandle)],
            by simp [Alloc, hOpen, hbt, hcbt, g2, hDisp], ?_, e3,
            Or.inl ⟨rfl, by simp [e1]⟩, ?_⟩
          · exact WFG_of_some g1 (by simp [g2]) g3
          · intro h
            exact absurd h (by simp)
        case neg =>
          by_cases hz : s1.liveActorCount = 0
          case pos =>
            obtain ⟨s4, effs2, hsbt, k1, k2, k3, k4, k5, k6⟩ :=
              sbt_zero_spec { s1 with liveActors := some [], liveActorCount := 0 }
                (WFG_of_some g1 (by simp) g3) rfl
            refine ⟨none, s4, effs ++ effs2,
              by simp [Alloc, hOpen, hbt, hcbt, g2, hDisp, hz, hsbt],
              WFG_of_none k2 k4 k3 k1, k5.trans e3,
              Or.inr ⟨rfl, by rw [k1, hcnt0]⟩, ?_⟩
            intro _ tgt a t2 h2 hmem
            rcases List.mem_append.mp hmem with h | h
            · have := e8 tgt _ h
              simp at this
            · rcases k6 _ h with h1 | h1 | ⟨cb, h1⟩ <;> simp at h1
          case neg =>
            refine ⟨none, { s1 with liveActors := some [] }, effs,
              by simp [Alloc, hOpen, hbt, hcbt, g2, hDisp, hz],
              WFG_of_some g1 (by simp) g3, e3,
              Or.inr ⟨rfl, e1⟩, ?_⟩
            intro _ tgt a t2 h2 hmem
            have := e8 tgt _ hmem
            simp at this
    | some tid =>
      have harr : s.liveActors ≠ none := by
        intro h
        rw [w2.mpr h] at hbt
        cases hbt
      have htim : s.shutdownTimer ≠ none := w4 (by simp [hbt])
      have hWFs : WFG s := ⟨w1, w2, w3, w4⟩
      by_cases hDisp : env.dispatchConnectOk
      case pos =>
        refine ⟨some (otherProcessParentActor c t),
          { s with liveActorCount := s.liveActorCount + 1 },
          [Effect.dispatch .background
            (.connectActor (otherProcessParentActor c t) t env.processHandle)],
          by simp [Alloc, hOpen, hbt, Option.isNone_iff_eq_none, harr, hDisp],
          WFG_of_some hbt harr htim, rfl, Or.inl ⟨rfl, rfl⟩, ?_⟩
        intro h
        exact absurd h (by simp)
      case neg =>
        by_cases hz : s.liveActorCount = 0
        case pos =>
          obtain ⟨s4, effs2, hsbt, k1, k2, k3, k4, k5, k6⟩ :=
            sbt_zero_spec
              { s with backgroundThread := some tid, liveActorCount := 0 }
              (WFG_of_some rfl harr htim) rfl
          refine ⟨none, s4, effs2,
            by simp [Alloc, hOpen, hbt, Option.isNone_iff_eq_none, harr,
              hDisp, hz, hsbt],
            WFG_of_none k2 k4 k3 k1, k5, Or.inr ⟨rfl, by rw [k1, hz]⟩, ?_⟩
          intro _ tgt a t2 h2 hmem
          rcases k6 _ hmem with h1 | h1 | ⟨cb, h1⟩ <;> simp at h1
        case neg =>
          refine ⟨none, { s with liveActorCount := s.liveActorCount + 1 - 1 }, [],
            by simp [Alloc, hOpen, hbt, Option.isNone_iff_eq_none, harr,
              hDisp, hz], WFG_of_some hbt harr htim, rfl,
            Or.inr ⟨rfl, by simp⟩, ?_⟩
          intro _ tgt a t2 h2 hmem
          simp at hmem


set_option maxHeartbeats 2000000 in
/-- Case summary of `ParentImpl::CreateActorForSameProcess`: under the statics
invariant (and before shutdown) it never violates an assertion, and the
live-actor count is incremented exactly on the success result. -/
theorem safs_spec (env : Env) (cb : CallbackId) (s : GState)
    (hWF : WFG s) (hSd : s.shutdownHasStarted = false) :
    ∃ ok s1 effs, CreateActorForSameProcess env cb s = some (ok, s1, effs) ∧
      WFG s1 ∧ s1.shutdownHasStarted = false ∧
      (ok = true → s1.liveActorCount = s.liveActorCount + 1) ∧
      (ok = false → s1.liveActorCount = s.liveActorCount) := by
  obtain ⟨w1, w2, w3, w4⟩ := hWF
  cases hbt : s.backgroundThread with
  | none =>
    have harr : s.liveActors = none := w2.mp hbt
    have hml : s.messageLoop = none := by
      by_contra hml
      exact w1 hml hbt
    have hcnt0 : s.liveActorCount = 0 := w3 hbt
    obtain ⟨b, s1, effs, hcbt, e1, e2, e3, e4, e5, e6, e7, e8⟩ :=
      cbt_spec env s hbt harr
    cases b with
    | false =>
      obtain ⟨f1, f2, f3⟩ := e7 rfl
      refine ⟨false, s1, effs,
        by simp [CreateActorForSameProcess, hbt, hcbt],
        WFG_of_none f1 f2 (by rw [e2, hml]) (by rw [e1, hcnt0]),
        e3.trans hSd, by simp, fun _ => e1⟩
    | true =>
      obtain ⟨g1, g2, g3, g4⟩ := e6 rfl
      refine ⟨true,
        { s1 with liveActorCount := s1.liveActorCount + 1,
                  pendingCallbacks :=
                    some (s1.pendingCallbacks.getD [] ++ [cb]) }, effs,
        by simp [CreateActorForSameProcess, hbt, hcbt, e3, hSd, e2, hml],
        WFG_of_some g1 (by simp [g2]) g3, e3.trans hSd,
        fun _ => by simp [e1], by simp⟩
  | some tid =>
    have harr : s.liveActors ≠ none := by
      intro h
      rw [w2.mpr h] at hbt
      cases hbt
    have htim : s.shutdownTimer ≠ none := w4 (by simp [hbt])
    by_cases hml : s.messageLoop = none
    case pos =>
      refine ⟨true,
        { s with liveActorCount := s.liveActorCount + 1,
                 pendingCallbacks :=
                   some (s.pendingCallbacks.getD [] ++ [cb]) }, [],
        by simp [CreateActorForSameProcess, hbt, hSd, hml],
        WFG_of_some hbt harr htim, hSd, fun _ => rfl, by simp⟩
    case neg =>
      refine ⟨true, { s with liveActorCount := s.liveActorCount + 1 },
        [Effect.dispatch .current (.createCallback cb)],
        by simp [CreateActorForSameProcess, hbt, hSd,
          Option.isSome_iff_ne_none, hml],
        WFG_of_some hbt harr htim, hSd, fun _ => rfl, by simp⟩

set_option maxHeartbeats 1000000 in
/-- Facts about the main-thread leg of `RequestMessageLoopRunnable`: it
preserves the statics invariant, the live-actor count, and the shutdown
flag. -/
theorem rml_spec (tid loop : Nat) (s : GState) (hWF : WFG s) (s1 : GState)
    (effs : List Effect)
    (h : RequestMessageLoopMainLeg tid loop s = some (s1, effs)) :
    WFG s1 ∧ s1.liveActorCount = s.liveActorCount ∧
    s1.shutdownHasStarted = s.shutdownHasStarted := by
  obtain ⟨w1, w2, w3, w4⟩ := hWF
  unfold RequestMessageLoopMainLeg at h
  split at h
  case isTrue hb =>
    simp only [Option.some.injEq, Prod.mk.injEq] at h
    obtain ⟨rfl, rfl⟩ := h
    exact ⟨⟨w1, w2, w3, w4⟩, rfl, rfl⟩
  case isFalse hb =>
    have hbt : s.backgroundThread = some tid := by
      by_contra hx
      exact hb hx
    have harr : s.liveActors ≠ none := by
      intro hx
      rw [w2.mpr hx] at hbt
      cases hbt
    have htim : s.shutdownTimer ≠ none := w4 (by simp [hbt])
    split at h
    · simp at h
    · split at h
      · simp only [Option.some.injEq, Prod.mk.injEq] at h
        obtain ⟨rfl, rfl⟩ := h
        exact ⟨WFG_of_some hbt harr htim, rfl, rfl⟩
      · split at h
        · simp only [Option.some.injEq, Prod.mk.injEq] at h
          obtain ⟨rfl, rfl⟩ := h
          exact ⟨WFG_of_some hbt harr htim, rfl, rfl⟩
        · simp only [Option.some.injEq, Prod.mk.injEq] at h
          obtain ⟨rfl, rfl⟩ := h
          exact ⟨WFG_of_some hbt harr htim, rfl, rfl⟩

set_option maxHeartbeats 1000000 in
/-- Case summary of `ParentImpl::MainThreadActorDestroy`: with a well-formed
actor and a positive live-actor count, no assertion fires, the count is
decremented by exactly one, and the background thread is torn down exactly
when the count reaches zero. -/
theorem mtad_spec (s : GState) (a : ParentActor)
    (hWF : WFG s) (hA : WFActor a) (hC : s.liveActorCount ≠ 0) :
    ∃ g1 a1 effs, MainThreadActorDestroy s a = some (g1, a1, effs) ∧
      WFG g1 ∧ g1.shutdownHasStarted = s.shutdownHasStarted ∧
      g1.liveActorCount = s.liveActorCount - 1 ∧
      (g1.liveActorCount = 0 → g1.backgroundThread = none ∧
        g1.messageLoop = none) ∧
      (g1.liveActorCount ≠ 0 → g1.backgroundThread = s.backgroundThread) ∧
      a1 = (mainThreadActorCleanup a).1 ∧
      (∀ e ∈ (mainThreadActorCleanup a).2, e ∈ effs) ∧
      (∀ e ∈ effs, e ∈ (mainThreadActorCleanup a).2 ∨
        e = Effect.dispatch .background .shutdownThreadCleanup ∨
        e = Effect.joinBackgroundThread ∨ (∃ cb, e = Effect.invokeFailure cb) ∨
        e = Effect.releaseActorRef) := by
  obtain ⟨w1, w2, w3, w4⟩ := hWF
  obtain ⟨hA1, hA2⟩ := hA
  have hd1 : ¬(a.isOtherProcessActor ∧
      (a.content.isNone ∨ a.transport.isNone)) := by
    cases hio : a.isOtherProcessActor <;>
      simp_all [Option.isNone_iff_eq_none, Option.isSome_iff_ne_none]
  have hd2 : ¬(¬a.isOtherProcessActor ∧
      (a.content.isSome ∨ a.transport.isSome)) := by
    cases hio : a.isOtherProcessActor <;>
      simp_all [Option.isNone_iff_eq_none, Option.isSome_iff_ne_none]
  cases hbt : s.backgroundThread with
  | none => exact absurd (w3 hbt) hC
  | some tid =>
    have harr : s.liveActors ≠ none := by
      intro hx
      rw [w2.mpr hx] at hbt
      cases hbt
    have htim : s.shutdownTimer ≠ none := w4 (by simp [hbt])
    by_cases hz : s.liveActorCount - 1 = 0
    case pos =>
      obtain ⟨s4, effs2, hsbt, k1, k2, k3, k4, k5, k6⟩ :=
        sbt_zero_spec
          { s with backgroundThread := some tid, liveActorCount := 0 }
          (WFG_of_some rfl harr htim) rfl
      refine ⟨s4, (mainThreadActorCleanup a).1,
        (mainThreadActorCleanup a).2 ++ effs2 ++ [Effect.releaseActorRef],
        by
          simp [MainThreadActorDestroy, hC, hbt, hz, hsbt]
          constructor
          · intro hio
            have := hA1 hio
            simp_all [Option.isSome_iff_ne_none]
          · exact hA2,
        WFG_of_none k2 k4 k3 k1, k5, by rw [k1, hz],
        fun _ => ⟨k2, k3⟩, fun hne => absurd k1 hne, rfl, ?_, ?_⟩
      · intro e he
        exact List.mem_append.mpr (Or.inl (List.mem_append.mpr (Or.inl he)))
      · intro e he
        rcases List.mem_append.mp he with he1 | he1
        · rcases List.mem_append.mp he1 with he2 | he2
          · exact Or.inl he2
          · rcases k6 e he2 with h1 | h1 | h1
            · exact Or.inr (Or.inl h1)
            · exact Or.inr (Or.inr (Or.inl h1))
            · exact Or.inr (Or.inr (Or.inr (Or.inl h1)))
        · rw [List.mem_singleton.mp he1]
          exact Or.inr (Or.inr (Or.inr (Or.inr rfl)))
    case neg =>
      refine ⟨{ s with liveActorCount := s.liveActorCount - 1 },
        (mainThreadActorCleanup a).1,
        (mainThreadActorCleanup a).2 ++ [Effect.releaseActorRef],
        by
          simp [MainThreadActorDestroy, hC, hbt, hz]
          constructor
          · intro hio
            have := hA1 hio
            simp_all [Option.isSome_iff_ne_none]
          · exact hA2,
        WFG_of_some hbt harr htim, rfl, rfl,
        fun hzz => absurd hzz hz, fun _ => hbt, rfl, ?_, ?_⟩
      · intro e he
        exact List.mem_append.mpr (Or.inl he)
      · intro e he
        rcases List.mem_append.mp he with he1 | he1
        · exact Or.inl he1
        · rw [List.mem_singleton.mp he1]
          exact Or.inr (Or.inr (Or.inr (Or.inr rfl)))

set_option maxHeartbeats 2000000 in
/-- Each main-thread event of the live-actor machine preserves the counting
invariant. -/
theorem lifeStep_inv (ls ls1 : LifeState) (e : LifeEvent)
    (hInv : LifeInv ls) (h : lifeStep ls e = some ls1) : LifeInv ls1 := by
  obtain ⟨i1, i2, i3, i4⟩ := hInv
  cases e with
  | allocCross env c t =>
    obtain ⟨res, s1, effs, ha, hw, hsd, hcase, hnoc⟩ := alloc_spec env c t ls.g i3
    rcases hcase with ⟨hres, hcnt⟩ | ⟨hres, hcnt⟩ <;> subst hres <;>
      simp only [lifeStep, ha] at h <;>
        obtain rfl := Option.some.inj h
    · refine ⟨?_, hsd.trans i2, hw, ?_⟩
      · simp [hcnt, i1]
        omega
      · intro x hx
        rcases List.mem_append.mp hx with hx1 | hx1
        · exact i4 x hx1
        · rw [List.mem_singleton.mp hx1]
          simp [WFActor, otherProcessParentActor]
    · exact ⟨by simp [hcnt, i1], hsd.trans i2, hw, i4⟩
  | allocSame env cb =>
    obtain ⟨ok, s1, effs, ha, hw, hsd, htrue, hfalse⟩ :=
      safs_spec env cb ls.g i3 i2
    simp only [lifeStep, ha] at h
    obtain rfl := Option.some.inj h
    cases ok
    · exact ⟨by simp [hfalse rfl, i1], hsd, hw, i4⟩
    · refine ⟨?_, hsd, hw, i4⟩
      simp [htrue rfl, i1]
      omega
  | publishLoop tid loop =>
    cases hr : RequestMessageLoopMainLeg tid loop ls.g with
    | none => simp [lifeStep, hr] at h
    | some pair =>
      obtain ⟨g1, effs⟩ := pair
      obtain ⟨hw, hcnt, hsd⟩ := rml_spec tid loop ls.g i3 g1 effs hr
      simp only [lifeStep, hr] at h
      obtain rfl := Option.some.inj h
      exact ⟨by simp [hcnt, i1], hsd.trans i2, hw, i4⟩
  | constructSame cb =>
    by_cases hpc : ls.pendingConstruct = 0
    · simp [lifeStep, hpc] at h
    · cases hml : ls.g.messageLoop with
      | none => simp [lifeStep, hpc, CreateCallbackRunnableRun, hml] at h
      | some loop =>
        simp only [lifeStep, hpc, CreateCallbackRunnableRun, hml,
          if_false] at h
        simp at h
        obtain rfl := h
        refine ⟨?_, i2, i3, ?_⟩
        · simp [i1]
          omega
        · intro x hx
          rcases List.mem_append.mp hx with hx1 | hx1
          · exact i4 x hx1
          · rw [List.mem_singleton.mp hx1]
            simp [WFActor, sameProcessParentActor]
  | destroy i =>
    cases hgi : ls.live[i]? with
    | none => simp [lifeStep, hgi] at h
    | some a =>
      have hlt : i < ls.live.length := by
        by_contra hge
        push_neg at hge
        rw [List.getElem?_eq_none hge] at hgi
        cases hgi
      have hmem : a ∈ ls.live := by
        have := List.getElem?_eq_some.mp hgi
        obtain ⟨hh, rfl⟩ := this
        exact List.getElem_mem hh
      have hC : ls.g.liveActorCount ≠ 0 := by
        rw [i1]
        omega
      obtain ⟨g1, a1, effs, hmtad, hw, hsd, hcnt, hzero, hnz⟩ :=
        mtad_spec ls.g a i3 (i4 a hmem) hC
      simp only [lifeStep, hgi, hmtad] at h
      obtain rfl := Option.some.inj h
      refine ⟨?_, hsd.trans i2, hw, ?_⟩
      · simp [hcnt, i1, List.length_eraseIdx, hlt]
        omega
      · intro x hx
        exact i4 x (List.mem_of_mem_eraseIdx hx)

/-- Invariant propagation along any event trace. -/
theorem runLifeFrom_inv (evs : List LifeEvent) (ls ls1 : LifeState)
    (hInv : LifeInv ls) (h : runLifeFrom ls evs = some ls1) : LifeInv ls1 := by
  induction evs generalizing ls with
  | nil =>
    simp only [runLifeFrom, Option.some.injEq] at h
    exact h ▸ hInv
  | cons e rest ih =>
    simp only [runLifeFrom] at h
    cases hs : lifeStep ls e with
    | none => rw [hs] at h; cases h
    | some ls2 =>
      rw [hs] at h
      exact ih ls2 (lifeStep_inv ls ls2 e hInv hs) h

/-- The initial state satisfies the counting invariant. -/
theorem initLife_inv : LifeInv initLife := by
  refine ⟨rfl, rfl, ?_, ?_⟩
  · exact ⟨fun h => absurd rfl h, by simp [initLife, initGState], fun _ => rfl,
      fun h => absurd rfl h⟩
  · intro a ha
    simp [initLife] at ha

/-- Each forcing-phase event preserves the shutdown-phase invariant. -/
theorem sdStep_inv (s s1 : ShutdownPhase) (e : SdEvent)
    (hInv : SdInv s) (h : sdStep s e = some s1) : SdInv s1 := by
  obtain ⟨i1, i2, i3, i4⟩ := hInv
  cases e with
  | runForceCloseBg =>
    simp only [sdStep] at h
    split at h
    case isTrue hbg =>
      obtain rfl := Option.some.inj h
      refine ⟨?_, by simp, by simp, by simp⟩
      simp only [hbg, true_or, if_true] at i1
      simpa using i1
    case isFalse hbg => cases h
  | runForceCloseMain =>
    simp only [sdStep] at h
    split at h
    case isTrue hm =>
      split at h
      case isTrue hc => cases h
      case isFalse hc =>
        obtain rfl := Option.some.inj h
        have hbg : s.bgForceClosePending = false := by
          cases hb : s.bgForceClosePending
          · rfl
          · exact absurd ⟨hb, hm⟩ i2
        refine ⟨?_, by simp, by simp, Or.inr (Or.inr (i3 hm))⟩
        rw [hbg, hm] at i1
        simp only [hbg]
        simp at i1 ⊢
        omega
    case isFalse hm => cases h
  | runActorMainDestroy =>
    simp only [sdStep] at h
    split at h
    case isTrue hl => cases h
    case isFalse hl =>
      split at h
      case isTrue hc => cases h
      case isFalse hc =>
        obtain rfl := Option.some.inj h
        refine ⟨?_, i2, i3, ?_⟩
        · simp only []
          omega
        · simpa using i4
  
/-- Invariant propagation along any forcing-phase trace. -/
theorem sdRun_inv (evs : List SdEvent) (s s1 : ShutdownPhase)
    (hInv : SdInv s) (h : sdRun s evs = some s1) : SdInv s1 := by
  induction evs generalizing s with
  | nil =>
    simp only [sdRun, Option.some.injEq] at h
    exact h ▸ hInv
  | cons e rest ih =>
    simp only [sdRun] at h
    cases hs : sdStep s e with
    | none => rw [hs] at h; cases h
    | some s2 =>
      rw [hs] at h
      exact ih s2 (sdStep_inv s s2 e hInv hs) h

/-- A state satisfying the forcing-phase invariant can only have a zero
live-actor count after the background leg has issued the closes. -/
theorem sdInv_zero_closes (s : ShutdownPhase) (hInv : SdInv s)
    (hz : s.liveActorCount = 0) : s.closesIssued = true := by
  obtain ⟨i1, i2, i3, i4⟩ := hInv
  have hbg : s.bgForceClosePending = false := by
    cases hb : s.bgForceClosePending
    · rfl
    · rw [hz, hb] at i1
      simp at i1
  have hm : s.mainForceClosePending = false := by
    cases hmm : s.mainForceClosePending
    · rfl
    · rw [hz, hmm] at i1
      simp at i1
  rcases i4 with h4 | h4 | h4
  · rw [hbg] at h4
    cases h4
  · rw [hm] at h4
    cases h4
  · exact h4

set_option maxHeartbeats 1000000 in
/-- Effects of the actor-local teardown when the actor owns a transport: the
transport field is cleared, its deletion is posted to the I/O thread, and no
other effect mentions a transport-delete task. -/
theorem cleanup_spec (a : ParentActor) (t : Nat) (htr : a.transport = some t) :
    (mainThreadActorCleanup a).1.transport = none ∧
    Effect.dispatch .io (.deleteTransport t) ∈ (mainThreadActorCleanup a).2 ∧
    (∀ tgt task, Effect.dispatch tgt task ∈ (mainThreadActorCleanup a).2 →
      task = PTask.deleteTransport t → tgt = .io) := by
  cases hop : a.otherProcess <;>
    simp_all [mainThreadActorCleanup, htr, hop]

set_option maxHeartbeats 2000000 in
/-- ShutdownBackgroundThread during final shutdown (after the observer has
set `sShutdownHasStarted`): it succeeds and leaves the cleared statics. -/
theorem sbt_shutdown_spec (s : GState) (hWF : WFG s)
    (hSd : s.shutdownHasStarted = true) :
    ∃ s1 effs, ShutdownBackgroundThread s = some (s1, effs) ∧
      s1.backgroundThread = none ∧ s1.liveActors = none ∧
      s1.messageLoop = none ∧ s1.shutdownHasStarted = true ∧
      s1.liveActorCount = 0 ∧ s1.pendingCallbacks = none ∧
      s1.shutdownTimer = none := by
  obtain ⟨w1, w2, w3, w4⟩ := hWF
  cases hbt : s.backgroundThread <;>
    cases hpc : s.pendingCallbacks <;>
      by_cases hz : s.liveActorCount = 0 <;>
        simp_all [ShutdownBackgroundThread, Option.isSome_iff_ne_none] <;>
          refine ⟨_, _, ⟨rfl, rfl⟩, ?_⟩ <;> simp_all

/-! Claim theorems. -/

/-- C1: once `sShutdownHasStarted` is set — which the shutdown observer's
`Observe` does, also clearing the background-thread statics via
`ShutdownBackgroundThread` (last conjunct) — every subsequent creation
request fails deterministically with the statics unchanged and no effects:
`CreateBackgroundThread` returns false without spawning a thread,
`ParentImpl::Alloc` returns no actor, and `CreateActorForSameProcess`
returns false, so no creation request made after shutdown began returns or
constructs a new actor. -/
theorem c1_no_creation_after_shutdown (env : Env) (aenv : AllocEnv)
    (c t : Nat) (cb : CallbackId) (s s0 : GState)
    (hSd : s.shutdownHasStarted = true)
    (hTh : s.backgroundThread = none)
    (hArr : s.liveActors = none)
    (hWF0 : WFG s0) (hSd0 : s0.shutdownHasStarted = false) :
    CreateBackgroundThread env s = some (false, s, []) ∧
    Alloc aenv c t s = some (none, s, []) ∧
    CreateActorForSameProcess env cb s = some (false, s, []) ∧
    ∃ s1 effs, Observe s0 = some (s1, effs) ∧
      s1.shutdownHasStarted = true ∧ s1.backgroundThread = none ∧
      s1.liveActors = none := by
  have hc : CreateBackgroundThread env s = some (false, s, []) := by
    simp [CreateBackgroundThread, hTh, hArr, hSd]
  refine ⟨hc, ?_, ?_, ?_⟩
  · have hc2 : CreateBackgroundThread aenv.cbtEnv s = some (false, s, []) := by
      simp [CreateBackgroundThread, hTh, hArr, hSd]
    by_cases hOpen : aenv.openHandleOk
    · simp [Alloc, hOpen, hTh, hc2]
    · simp [Alloc, hOpen]
  · simp [CreateActorForSameProcess, hTh, hc]
  · obtain ⟨w1, w2, w3, w4⟩ := hWF0
    obtain ⟨s1, effs1, hsbt, k1, k2, k3, k4, k5, k6, k7⟩ :=
      sbt_shutdown_spec { s0 with shutdownHasStarted := true }
        ⟨w1, w2, w3, w4⟩ rfl
    refine ⟨s1, Effect.childShutdown :: effs1, ?_, k4, k1, k2⟩
    simp [Observe, hSd0, hsbt]

/-- C1 witness at concrete inputs. -/
theorem c1_witness :
    CreateBackgroundThread envOK gShutdownStarted =
      some (false, gShutdownStarted, []) ∧
    Alloc aenvOK 3 5 gShutdownStarted = some (none, gShutdownStarted, []) ∧
    CreateActorForSameProcess envOK 7 gShutdownStarted =
      some (false, gShutdownStarted, []) ∧
    ∃ s1 effs, Observe initGState = some (s1, effs) ∧
      s1.shutdownHasStarted = true ∧ s1.backgroundThread = none ∧
      s1.liveActors = none :=
  c1_no_creation_after_shutdown envOK aenvOK 3 5 7 gShutdownStarted initGState
    rfl rfl rfl (by decide) rfl

/-- C2 counterexample: after a first `ParentImpl::ActorDestroy` has run on a
same-process actor, a second call is not a no-op with unchanged state: it
violates the `MOZ_ASSERT(!mActorDestroyed)` at line 1320 (modelled as
`none`; in a release build it would re-dispatch the destroy runnable). The
child side (line 2052) behaves the same. -/
theorem c2_counterexample :
    ParentActorDestroy sameProcessParentActor =
      some (destroyedSameProcessActor,
        [Effect.dispatch .current .destroySelf]) ∧
    ParentActorDestroy destroyedSameProcessActor = none ∧
    ChildActorDestroy 1 ⟨some 1, false⟩ = some ⟨some 1, true⟩ ∧
    ChildActorDestroy 1 ⟨some 1, true⟩ = none :=
  ⟨rfl, rfl, rfl, rfl⟩

/-- C2 (amended): `ActorDestroy` is not an idempotent no-op on a second
call; the code instead asserts it runs at most once per actor. For an
already-destroyed actor (parent or child side) a further `ActorDestroy`
call fails the `!mActorDestroyed` assertion, and any successful parent-side
call starts from a not-yet-destroyed actor and marks it destroyed. -/
theorem c2_destroy_not_idempotent (a : ParentActor) (c : ChildActor)
    (ct : Nat) (ha : a.actorDestroyed = true) (hc : c.actorDestroyed = true) :
    ParentActorDestroy a = none ∧ ChildActorDestroy ct c = none ∧
    (∀ b b1 e1, ParentActorDestroy b = some (b1, e1) →
       b.actorDestroyed = false ∧ b1.actorDestroyed = true) := by
  refine ⟨by simp [ParentActorDestroy, ha], ?_, ?_⟩
  · unfold ChildActorDestroy
    cases hb : c.boundThread
    · rfl
    · split_ifs with h1 h2 <;> simp_all
  · intro b b1 e1 h
    unfold ParentActorDestroy at h
    split at h
    case isTrue hdes => cases h
    case isFalse hdes =>
      split at h
      · cases h
      · refine ⟨by simp_all, ?_⟩
        cases hl : b.inLiveArray <;> simp [hl] at h <;>
          obtain ⟨h1, -⟩ := h <;> rw [← h1]

/-- C2 witness at concrete inputs. -/
theorem c2_witness :
    ParentActorDestroy destroyedSameProcessActor = none ∧
    ChildActorDestroy 1 ⟨some 1, true⟩ = none ∧
    (∀ b b1 e1, ParentActorDestroy b = some (b1, e1) →
       b.actorDestroyed = false ∧ b1.actorDestroyed = true) :=
  c2_destroy_not_idempotent destroyedSameProcessActor ⟨some 1, true⟩ 1 rfl rfl

/-- C9: if, by the time `AlreadyCreatedCallbackRunnable` runs,
`GetForCurrentThread()` reports no actor (the slot is gone, or holds no
actor), the runnable returns with the state unchanged and delivers no
notification — it neither drains the queue nor reports failure; the queue is
drained (with `ActorCreated`) only when the actor is still present. -/
theorem c9_no_actor_no_callbacks (st : ChildState) :
    (GetForCurrentThread st = none →
      AlreadyCreatedCallbackRunnableRun st = (st, [])) ∧
    (∀ tli a, st.threadLocal = some tli → tli.actor = some a →
      AlreadyCreatedCallbackRunnableRun st =
        (⟨some { tli with callbacks := [] }⟩,
         tli.callbacks.map Notif.actorCreated)) := by
  constructor
  · intro h
    cases hti : st.threadLocal with
    | none => simp [AlreadyCreatedCallbackRunnableRun, hti]
    | some tli =>
      cases hac : tli.actor with
      | none => simp [AlreadyCreatedCallbackRunnableRun, hti, hac]
      | some a =>
        simp only [GetForCurrentThread, hti, hac] at h
        cases h
  · intro tli a hti hac
    simp only [AlreadyCreatedCallbackRunnableRun, hti, hac]

/-- C9 witness at concrete inputs: with one queued callback and no actor the
runnable changes nothing and fires nothing; with an actor present it drains
the queue. -/
theorem c9_witness :
    AlreadyCreatedCallbackRunnableRun ⟨some ⟨none, [3]⟩⟩ =
      (⟨some ⟨none, [3]⟩⟩, []) ∧
    AlreadyCreatedCallbackRunnableRun ⟨some ⟨some ⟨some 1, false⟩, [4]⟩⟩ =
      (⟨some ⟨some ⟨some 1, false⟩, []⟩⟩,
       List.map Notif.actorCreated [4]) :=
  ⟨(c9_no_actor_no_callbacks ⟨some ⟨none, [3]⟩⟩).1 rfl,
   (c9_no_actor_no_callbacks ⟨some ⟨some ⟨some 1, false⟩, [4]⟩⟩).2
     ⟨some ⟨some 1, false⟩, [4]⟩ ⟨some 1, false⟩ rfl rfl⟩

/-- C3 counterexample: at a concrete main-thread teardown of a
transport-owning actor, the `DeleteTask` for the transport is posted to the
I/O thread's message loop (`XRE_GetIOMessageLoop()`, line 1254), and no
task is posted to the dispatcher (background) thread's task queue as the
claim states. -/
theorem c3_counterexample :
    MainThreadActorDestroy c3State c3Actor =
      some (c3StateAfter, c3ActorAfter, c3Effs) ∧
    Effect.dispatch .io (.deleteTransport 5) ∈ c3Effs ∧
    Effect.dispatch .background (.deleteTransport 5) ∉ c3Effs :=
  ⟨by decide, by decide, by decide⟩

/-- C3 (amended): when the main-thread teardown runs for an actor owning a
transport, the transport field is cleared and the transport is released
only via a delete task posted to the I/O thread's message loop — never
synchronously on the calling thread, and not on the dispatcher thread's
task queue: every dispatched transport-delete task targets the I/O
thread. -/
theorem c3_transport_release (s : GState) (a : ParentActor) (t : Nat)
    (hWF : WFG s) (hA : WFActor a) (htr : a.transport = some t)
    (hC : s.liveActorCount ≠ 0) :
    ∃ g1 a1 effs, MainThreadActorDestroy s a = some (g1, a1, effs) ∧
      Effect.dispatch .io (.deleteTransport t) ∈ effs ∧
      a1.transport = none ∧
      (∀ tgt task, Effect.dispatch tgt task ∈ effs →
        task = PTask.deleteTransport t → tgt = .io) := by
  obtain ⟨g1, a1, effs, hm, _, _, _, _, _, ha1, hsub, hsup⟩ :=
    mtad_spec s a hWF hA hC
  obtain ⟨cl1, cl2, cl3⟩ := cleanup_spec a t htr
  refine ⟨g1, a1, effs, hm, hsub _ cl2, by rw [ha1]; exact cl1, ?_⟩
  intro tgt task hmem htask
  rcases hsup _ hmem with h1 | h1 | h1 | ⟨cb2, h1⟩ | h1
  · exact cl3 tgt task h1 htask
  · rw [htask] at h1
    simp at h1
  · rw [htask] at h1
    simp at h1
  · rw [htask] at h1
    simp at h1
  · rw [htask] at h1
    simp at h1

/-- C3 witness at concrete inputs. -/
theorem c3_witness :
    ∃ g1 a1 effs, MainThreadActorDestroy c3State c3Actor =
        some (g1, a1, effs) ∧
      Effect.dispatch .io (.deleteTransport 5) ∈ effs ∧
      a1.transport = none ∧
      (∀ tgt task, Effect.dispatch tgt task ∈ effs →
        task = PTask.deleteTransport 5 → tgt = .io) :=
  c3_transport_release c3State c3Actor 5 (by decide) (by decide) rfl
    (by decide)

/-- C4 counterexample: a child-process cross-process `Open` failure in
`OpenChildProcessActorRunnable::Run` hits `CRASH_IN_CHILD_PROCESS`
(line 1845) before any queued callback is notified: with callbacks
`[11, 12, 13]` queued, no `ActorFailed` (nor `ActorCreated`) notification
is ever delivered, so the claimed exactly-once failure delivery does not
hold on this path. -/
theorem c4_counterexample :
    OpenChildProcessActorRunnableRun false 6 ⟨some ⟨none, [11, 12, 13]⟩⟩ =
      none := rfl

/-- C4 (amended): callbacks enqueued by `GetOrCreateForCurrentThread` before
construction completes are kept in FIFO order, and when notifications are
delivered they drain the whole queue front to back, each callback exactly
once — `ActorCreated` on a successful `Open`, `ActorFailed` via the failure
runnable; but a child-process `Open` failure in
`OpenChildProcessActorRunnable::Run` aborts the process before delivering
any notification. -/
theorem c4_callback_fifo (onMain openOk : Bool) (cb curTid : Nat)
    (tli : ThreadLocalInfo) :
    (tli.actor = none →
      GetOrCreateForCurrentThread onMain openOk cb ⟨some tli⟩ =
        some (true,
          ⟨some { tli with callbacks := tli.callbacks ++ [cb] }⟩, [])) ∧
    (GetOrCreateForCurrentThread onMain true cb ⟨none⟩ =
      some (true, ⟨some ⟨none, [cb]⟩⟩,
        if onMain then [CEffect.openProtocolOnMainThread]
        else [CEffect.dispatchCreateActorToMain])) ∧
    (tli.callbacks ≠ [] → tli.actor = none →
      OpenChildProcessActorRunnableRun true curTid ⟨some tli⟩ =
        some (⟨some { tli with actor := some ⟨some curTid, false⟩,
                               callbacks := [] }⟩,
          tli.callbacks.map Notif.actorCreated)) ∧
    (tli.callbacks ≠ [] →
      OpenChildProcessActorRunnableRun false curTid ⟨some tli⟩ = none) ∧
    (FailedCreateCallbackRunnableRun ⟨some tli⟩ =
      some (⟨some { tli with callbacks := [] }⟩,
        tli.callbacks.map Notif.actorFailed)) := by
  refine ⟨?_, ?_, ?_, ?_, ?_⟩
  · intro h
    simp [GetOrCreateForCurrentThread, h]
  · cases onMain <;> simp [GetOrCreateForCurrentThread]
  · intro hne hac
    cases hcb : tli.callbacks with
    | nil => exact absurd hcb hne
    | cons c rest => simp [OpenChildProcessActorRunnableRun, hcb, hac]
  · intro hne
    cases hcb : tli.callbacks with
    | nil => exact absurd hcb hne
    | cons c rest => simp [OpenChildProcessActorRunnableRun, hcb]
  · simp [FailedCreateCallbackRunnableRun]

/-- C4 witness at concrete inputs: enqueue keeps FIFO order, a successful
open drains `ActorCreated` in order `11, 12, 13`, the failure runnable
drains `ActorFailed` in the same order. -/
theorem c4_witness :
    GetOrCreateForCurrentThread false true 13 ⟨some ⟨none, [11, 12]⟩⟩ =
      some (true, ⟨some ⟨none, [11, 12, 13]⟩⟩, []) ∧
    OpenChildProcessActorRunnableRun true 6 ⟨some ⟨none, [11, 12, 13]⟩⟩ =
      some (⟨some ⟨some ⟨some 6, false⟩, []⟩⟩,
        List.map Notif.actorCreated [11, 12, 13]) ∧
    FailedCreateCallbackRunnableRun ⟨some ⟨none, [11, 12, 13]⟩⟩ =
      some (⟨some ⟨none, []⟩⟩, List.map Notif.actorFailed [11, 12, 13]) :=
  ⟨(c4_callback_fifo false true 13 6 ⟨none, [11, 12]⟩).1 rfl,
   (c4_callback_fifo false true 13 6 ⟨none, [11, 12, 13]⟩).2.2.1 (by decide)
     rfl,
   (c4_callback_fifo false true 13 6 ⟨none, [11, 12, 13]⟩).2.2.2.2⟩

/-- C8 counterexample: a `CreateBackgroundThread` call that fails at thread
spawning (`NS_NewNamedThread`, line 1102) nevertheless leaves the shutdown
observer registered: the failing call returns false with
`sShutdownObserverRegistered` set and a registration effect emitted,
refuting "a call that fails registers nothing". -/
theorem c8_counterexample :
    CreateBackgroundThread envSpawnFail initGState =
      some (false, { initGState with shutdownObserverRegistered := true },
        [Effect.createTimerInstance, Effect.registerShutdownObserver]) ∧
    Effect.registerShutdownObserver ∈
      [Effect.createTimerInstance, Effect.registerShutdownObserver] :=
  ⟨by decide, by decide⟩

set_option maxHeartbeats 2000000 in
/-- C8 (amended): the shutdown observer is registered at most once across
the process lifetime — a call finding the flag set never registers again,
any call that emits a registration found the flag unset and leaves it set
(so no later call registers), and a single call emits at most one
registration; the registration happens on the first call that reaches the
registration step, even if that call subsequently fails to spawn the
thread. On a successful call with no published timer, the timer instance is
created first — before the thread is spawned. -/
theorem c8_observer_registration (env : Env) (s : GState)
    (hTh : s.backgroundThread = none) (hArr : s.liveActors = none) :
    (∀ b s1 effs, CreateBackgroundThread env s = some (b, s1, effs) →
      (s.shutdownObserverRegistered = true →
        s1.shutdownObserverRegistered = true ∧
        Effect.registerShutdownObserver ∉ effs) ∧
      (Effect.registerShutdownObserver ∈ effs →
        s.shutdownObserverRegistered = false ∧
        s1.shutdownObserverRegistered = true) ∧
      List.count Effect.registerShutdownObserver effs ≤ 1) ∧
    (∀ s1 effs, CreateBackgroundThread env s = some (true, s1, effs) →
      s.shutdownTimer = none →
      effs = Effect.createTimerInstance ::
        ((if s.shutdownObserverRegistered then []
          else [Effect.registerShutdownObserver]) ++
         [Effect.spawnBackgroundThread env.newThreadId,
          Effect.dispatch .background .requestMessageLoop])) := by
  constructor
  · intro b s1 effs h
    simp only [CreateBackgroundThread, hTh, hArr, Option.isSome_none,
      Bool.false_eq_true, or_self, if_false] at h
    split_ifs at h with h1 h2 h3 h4 h5 h6 h7 <;>
      simp only [Option.some.injEq, Prod.mk.injEq] at h <;>
        obtain ⟨rfl, rfl, rfl⟩ := h <;>
          refine ⟨?_, ?_, ?_⟩ <;>
            simp_all [List.count_cons, List.count_nil, List.count_append]
  · intro s1 effs h htm
    simp only [CreateBackgroundThread, hTh, hArr, Option.isSome_none,
      Bool.false_eq_true, or_self, if_false, htm] at h
    split_ifs at h with h1 h2 h3 h4 h5 <;>
      simp only [Option.some.injEq, Prod.mk.injEq] at h <;>
        first
          | (obtain ⟨h0, -⟩ := h; exact absurd h0 (by decide))
          | (obtain ⟨-, -, rfl⟩ := h; simp_all)

/-- C8 witness at concrete inputs. -/
theorem c8_witness :
    ((initGState.shutdownObserverRegistered = true →
        c8S1.shutdownObserverRegistered = true ∧
        Effect.registerShutdownObserver ∉ c8Effs) ∧
     (Effect.registerShutdownObserver ∈ c8Effs →
        initGState.shutdownObserverRegistered = false ∧
        c8S1.shutdownObserverRegistered = true) ∧
     List.count Effect.registerShutdownObserver c8Effs ≤ 1) ∧
    c8Effs = Effect.createTimerInstance ::
      ((if initGState.shutdownObserverRegistered then []
        else [Effect.registerShutdownObserver]) ++
       [Effect.spawnBackgroundThread envOK.newThreadId,
        Effect.dispatch .background .requestMessageLoop]) :=
  ⟨(c8_observer_registration envOK initGState rfl rfl).1 true c8S1 c8Effs
     (by decide),
   (c8_observer_registration envOK initGState rfl rfl).2 c8S1 c8Effs
     (by decide) rfl⟩

/-- C5: the live-actor counter discipline. (1) Along any trace of the
main-thread events, `sLiveActorCount` always equals the number of live
actors plus the number of in-flight same-process constructions — in
particular it never underflows and the `MOZ_ASSERT(sLiveActorCount)` before
every decrement holds. (2) Every successful `Alloc` increments the counter
by exactly one. (3) From any invariant state, the main-thread teardown of a
live actor succeeds with a positive counter, decrements it by exactly one
(and exactly once per actor: the actor leaves the live list in the
machine), and tears the background thread down exactly when the counter
reaches zero. -/
theorem c5_live_actor_count :
    (∀ evs ls, runLife evs = some ls →
      ls.g.liveActorCount = ls.live.length + ls.pendingConstruct) ∧
    (∀ env c t s res s1 effs, WFG s →
      Alloc env c t s = some (res, s1, effs) → res.isSome →
      s1.liveActorCount = s.liveActorCount + 1) ∧
    (∀ (ls : LifeState) (i : Nat) (a : ParentActor),
      LifeInv ls → ls.live[i]? = some a →
      ∃ g1 a1 effs, MainThreadActorDestroy ls.g a = some (g1, a1, effs) ∧
        ls.g.liveActorCount ≠ 0 ∧
        g1.liveActorCount = ls.g.liveActorCount - 1 ∧
        (g1.liveActorCount = 0 → g1.backgroundThread = none) ∧
        (g1.liveActorCount ≠ 0 →
          g1.backgroundThread = ls.g.backgroundThread)) := by
  refine ⟨?_, ?_, ?_⟩
  · intro evs ls h
    exact (runLifeFrom_inv evs initLife ls initLife_inv h).1
  · intro env c t s res s1 effs hWF h hres
    obtain ⟨res2, s2, effs2, ha, _, _, hcase, -⟩ := alloc_spec env c t s hWF
    rw [ha] at h
    obtain ⟨rfl, rfl, rfl⟩ := by simpa using h
    rcases hcase with ⟨hr, hc⟩ | ⟨hr, hc⟩
    · exact hc
    · rw [hr] at hres
      cases hres
  · intro ls i a hInv hgi
    obtain ⟨i1, i2, i3, i4⟩ := hInv
    have hlt : i < ls.live.length := by
      by_contra hge
      push_neg at hge
      rw [List.getElem?_eq_none hge] at hgi
      cases hgi
    have hmem : a ∈ ls.live := by
      have := List.getElem?_eq_some.mp hgi
      obtain ⟨hh, rfl⟩ := this
      exact List.getElem_mem hh
    have hC : ls.g.liveActorCount ≠ 0 := by
      rw [i1]
      omega
    obtain ⟨g1, a1, effs, hm, -, -, hcnt, hzero, hnz, -, -, -⟩ :=
      mtad_spec ls.g a i3 (i4 a hmem) hC
    exact ⟨g1, a1, effs, hm, hC, hcnt, fun hz => (hzero hz).1, hnz⟩

/-- C5 witness at concrete inputs. -/
theorem c5_witness :
    c5LS.g.liveActorCount = c5LS.live.length + c5LS.pendingConstruct ∧
    c5LS.g.liveActorCount = initGState.liveActorCount + 1 ∧
    (∃ g1 a1 effs, MainThreadActorDestroy c5LS.g (otherProcessParentActor 3 5)
        = some (g1, a1, effs) ∧
      c5LS.g.liveActorCount ≠ 0 ∧
      g1.liveActorCount = c5LS.g.liveActorCount - 1 ∧
      (g1.liveActorCount = 0 → g1.backgroundThread = none) ∧
      (g1.liveActorCount ≠ 0 →
        g1.backgroundThread = c5LS.g.backgroundThread)) :=
  ⟨c5_live_actor_count.1 c5Trace c5LS (by decide),
   c5_live_actor_count.2.1 aenvOK 3 5 initGState
     (some (otherProcessParentActor 3 5)) c5LS.g c5Effs (by decide)
     (by decide) rfl,
   c5_live_actor_count.2.2 c5LS 0 (otherProcessParentActor 3 5) (by decide)
     rfl⟩

/-- C6: `ParentImpl::Alloc` failure behaviour. A failed process-handle open
returns no actor with the statics untouched; under the statics invariant no
assertion fires; and on every failure path (handle open, background-thread
creation, connect-runnable dispatch) the live-actor count is restored to its
prior value and no connect task — the only path by which an actor gets
registered with the background thread — is dispatched. -/
theorem c6_alloc_failure_paths (env : AllocEnv) (c t : Nat) (s : GState)
    (hWF : WFG s) :
    (env.openHandleOk = false → Alloc env c t s = some (none, s, [])) ∧
    (∃ r, Alloc env c t s = some r) ∧
    (∀ res s1 effs, Alloc env c t s = some (res, s1, effs) → res = none →
      s1.liveActorCount = s.liveActorCount ∧
      ∀ tgt a t2 h2, Effect.dispatch tgt (.connectActor a t2 h2) ∉ effs) := by
  obtain ⟨res2, s2, effs2, ha, hw, hsd, hcase, hnoc⟩ := alloc_spec env c t s hWF
  refine ⟨?_, ⟨_, ha⟩, ?_⟩
  · intro hOpen
    simp [Alloc, hOpen]
  · intro res s1 effs h hres
    rw [ha] at h
    obtain ⟨rfl, rfl, rfl⟩ := by simpa using h
    subst hres
    rcases hcase with ⟨hr, hc⟩ | ⟨hr, hc⟩
    · cases hr
    · exact ⟨hc, hnoc rfl⟩

/-- C6 witness at concrete inputs (peer process handle cannot be opened). -/
theorem c6_witness :
    Alloc aenvNoHandle 3 5 initGState = some (none, initGState, []) ∧
    initGState.liveActorCount = initGState.liveActorCount ∧
    Effect.dispatch .background
      (.connectActor (otherProcessParentActor 3 5) 5 4) ∉
      ([] : List Effect) := by
  obtain ⟨h1, -, h3⟩ := c6_alloc_failure_paths aenvNoHandle 3 5 initGState
    (by decide)
  have he := h1 rfl
  obtain ⟨hcnt, hnoc⟩ := h3 none initGState [] he rfl
  exact ⟨he, hcnt, hnoc .background (otherProcessParentActor 3 5) 5 4⟩

/-- C7: same-process parent allocation. With the dispatcher thread present:
if its message loop is already published the call succeeds, increments the
live-actor count, and dispatches a `CreateCallbackRunnable` to the current
thread, whose `Run` constructs a bare same-process parent actor (no
transport, not an other-process actor) and invokes
`Success(actor, sBackgroundThreadMessageLoop)`; otherwise the callback is
appended to `sPendingCallbacks`, and when the message-loop publication
runnable later runs on the main thread it publishes the loop and dispatches
one `CreateCallbackRunnable` per queued callback in FIFO order. -/
theorem c7_same_process_creation (env : Env) (cb : CallbackId) (s : GState)
    (tid loop : Nat) (cbs : List CallbackId)
    (hSd : s.shutdownHasStarted = false) :
    (s.backgroundThread = some tid → s.messageLoop = some loop →
      CreateActorForSameProcess env cb s =
        some (true, { s with liveActorCount := s.liveActorCount + 1 },
          [Effect.dispatch .current (.createCallback cb)])) ∧
    (s.backgroundThread = some tid → s.messageLoop = none →
      CreateActorForSameProcess env cb s =
        some (true,
          { s with liveActorCount := s.liveActorCount + 1,
                   pendingCallbacks :=
                     some (s.pendingCallbacks.getD [] ++ [cb]) }, [])) ∧
    (∀ s2, s2.messageLoop = some loop →
      CreateCallbackRunnableRun cb s2 =
        some (s2, [Effect.invokeSuccess cb sameProcessParentActor loop])) ∧
    sameProcessParentActor.transport = none ∧
    sameProcessParentActor.isOtherProcessActor = false ∧
    (s.backgroundThread = some tid → s.messageLoop = none →
      s.pendingCallbacks = some cbs → cbs ≠ [] →
      RequestMessageLoopMainLeg tid loop s =
        some ({ s with messageLoop := some loop,
                       pendingCallbacks := some [] },
          cbs.map fun c2 => Effect.dispatch .current (.createCallback c2))) := by
  refine ⟨?_, ?_, ?_, rfl, rfl, ?_⟩
  · intro hb hml
    simp [CreateActorForSameProcess, hb, hml, hSd]
  · intro hb hml
    simp [CreateActorForSameProcess, hb, hml, hSd]
  · intro s2 h2
    simp [CreateCallbackRunnableRun, h2]
  · intro hb hml hpc hne
    simp [RequestMessageLoopMainLeg, hb, hml, hpc, hne]

/-- C7 witness at concrete inputs. -/
theorem c7_witness :
    CreateActorForSameProcess envOK 7 c3State =
      some (true, { c3State with liveActorCount := c3State.liveActorCount + 1 },
        [Effect.dispatch .current (.createCallback 7)]) ∧
    CreateActorForSameProcess envOK 7 c7StateNoLoop =
      some (true,
        { c7StateNoLoop with
            liveActorCount := c7StateNoLoop.liveActorCount + 1,
            pendingCallbacks :=
              some (c7StateNoLoop.pendingCallbacks.getD [] ++ [7]) }, []) ∧
    CreateCallbackRunnableRun 7 c3State =
      some (c3State, [Effect.invokeSuccess 7 sameProcessParentActor 2]) ∧
    RequestMessageLoopMainLeg 1 2 c7StateNoLoop =
      some ({ c7StateNoLoop with messageLoop := some 2,
                                 pendingCallbacks := some [] },
        List.map (fun c2 => Effect.dispatch .current (.createCallback c2))
          [21, 22]) :=
  ⟨(c7_same_process_creation envOK 7 c3State 1 2 [21, 22] rfl).1 rfl rfl,
   (c7_same_process_creation envOK 7 c7StateNoLoop 1 2 [21, 22] rfl).2.1
     rfl rfl,
   (c7_same_process_creation envOK 7 c3State 1 2 [21, 22] rfl).2.2.1
     c3State rfl,
   (c7_same_process_creation envOK 7 c7StateNoLoop 1 2 [21, 22] rfl).2.2.2.2.2
     rfl rfl rfl (by decide)⟩

/-- C10: the shutdown deadline timer's callback increments the live-actor
count by one before dispatching the force-close runnable to the background
thread; in every reachable state of the forcing phase, the extra count is
released only by the main-thread leg, which can only run after the
background leg has issued `Close()` on every still-live actor; consequently
the main thread's spin loop — which exits only when the count reaches
zero — cannot terminate before all forced closes have been issued. -/
theorem c10_force_close_ordering (s0 s1 s2 : ShutdownPhase)
    (evs : List SdEvent)
    (hbg : s0.bgForceClosePending = false)
    (hm : s0.mainForceClosePending = false)
    (hcl : s0.closesIssued = false)
    (hc : s0.liveActorCount = s0.liveActors)
    (ht : ShutdownTimerFire s0 = some s1)
    (hr : sdRun s1 evs = some s2) :
    (s1.liveActorCount = s0.liveActorCount + 1 ∧
     s1.bgForceClosePending = true) ∧
    (s2.mainForceClosePending = true → s2.closesIssued = true) ∧
    (s2.liveActorCount = 0 → s2.closesIssued = true) := by
  unfold ShutdownTimerFire at ht
  split at ht
  · cases ht
  · obtain rfl := Option.some.inj ht
    have hInv1 : SdInv { s0 with liveActorCount := s0.liveActorCount + 1, bgForceClosePending := true } := by
      refine ⟨?_, ?_, ?_, ?_⟩ <;> simp [hbg, hm, hcl, hc]
    have hInv2 := sdRun_inv evs _ s2 hInv1 hr
    exact ⟨⟨rfl, rfl⟩, hInv2.2.2.1, fun hz => sdInv_zero_closes s2 hInv2 hz⟩

/-- C10 witness at concrete inputs: two live actors, the timer fires, the
background leg closes both, their teardowns run, then the main leg releases
the extra count; the count reaches zero only with the closes issued. -/
theorem c10_witness :
    (c10S1.liveActorCount = c10S0.liveActorCount + 1 ∧
     c10S1.bgForceClosePending = true) ∧
    (c10S2.mainForceClosePending = true → c10S2.closesIssued = true) ∧
    (c10S2.liveActorCount = 0 → c10S2.closesIssued = true) :=
  c10_force_close_ordering c10S0 c10S1 c10S2 c10Evs rfl rfl rfl rfl
    (by decide) (by decide)

end BackgroundIpc
